import Mathlib

/-!
Verification of the `smart-pointer` trait crate (`src/lib.rs`).

The crate declares three traits: `SmartPointer<T>` (construction via `new`,
fallible ownership reclamation via `try_unwrap`), `SmartPointerMut<T>`
(unconditional mutable access), and `IntoMut<T>` (a runtime-checked bridge,
with `can_make_mut`, the unsafe primitives `into_mut_unchecked` and
`get_mut_unchecked`, and the two provided safe methods `into_mut` and
`get_mut`).

The only executable code in the crate is the pair of provided method bodies
of `IntoMut`; they are embedded below over abstract implementations of the
required trait methods.  A trait method implementation is modelled as a
state-passing function `S → σ → Option (α × σ)`: the final state threads the
possible effects an implementor could have, and `none` models a panic or
abort.  Each embedded provided method additionally returns the list of trait
methods its body invoked, so that claims about which operations the default
bodies perform are statable.

The trait contracts themselves (`new`, `try_unwrap`, `can_make_mut`,
`MutablePointer`) have no implementation in the repository; a reference
implementation is modelled from the spec (a reference-counted store) and the
contract claims are settled against it.
-/

/-- The trait methods a provided method body of the crate could invoke.
The inventory covers the surface of `SmartPointer`, `SmartPointerMut` and
`IntoMut` so that absence of a call is expressible. -/
inductive MCall where
  | canMakeMut
  | intoMutUnchecked
  | getMutUnchecked
  | cloneHandle
  | newHandle
  | tryUnwrap
  | deref
deriving DecidableEq

/-- The abstract trait methods an implementor of `IntoMut<T>` supplies, as
state-passing functions over an implementation-owned state `σ`.  `S` is the
handle type (`Self`), `M` the associated `MutablePointer` type, `R` the type
modelling the mutable reference `&mut T` returned by `get_mut_unchecked`.
A result of `none` models a panic or abort inside the implementor's code. -/
structure IntoMutOps (σ S M R : Type) where
  can_make_mut : S → σ → Option (Bool × σ)
  into_mut_unchecked : S → σ → Option (M × σ)
  get_mut_unchecked : S → σ → Option (R × σ)

/-- Embedding of the provided method body of `IntoMut::into_mut`
(src/lib.rs lines 62-68):
`if can_make_mut(&this) { Ok(unsafe { into_mut_unchecked(this) }) } else { Err(this) }`.
Besides the result (`none` = a panic propagated from a trait method) it
returns the sequence of trait methods the body invoked. -/
def IntoMut.into_mut {σ S M R : Type} (O : IntoMutOps σ S M R) (h : S) (s : σ) :
    Option (Except S M × σ) × List MCall :=
  match O.can_make_mut h s with
  | none => (none, [MCall.canMakeMut])
  | some (b, s1) =>
    if b then
      match O.into_mut_unchecked h s1 with
      | none => (none, [MCall.canMakeMut, MCall.intoMutUnchecked])
      | some (m, s2) => (some (Except.ok m, s2), [MCall.canMakeMut, MCall.intoMutUnchecked])
    else
      (some (Except.error h, s1), [MCall.canMakeMut])

/-- Embedding of the provided method body of `IntoMut::get_mut`
(src/lib.rs lines 77-83):
`if can_make_mut(this) { Some(unsafe { get_mut_unchecked(this) }) } else { None }`. -/
def IntoMut.get_mut {σ S M R : Type} (O : IntoMutOps σ S M R) (h : S) (s : σ) :
    Option (Option R × σ) × List MCall :=
  match O.can_make_mut h s with
  | none => (none, [MCall.canMakeMut])
  | some (b, s1) =>
    if b then
      match O.get_mut_unchecked h s1 with
      | none => (none, [MCall.canMakeMut, MCall.getMutUnchecked])
      | some (r, s2) => (some (some r, s2), [MCall.canMakeMut, MCall.getMutUnchecked])
    else
      (some (none, s1), [MCall.canMakeMut])

/-- Modelled from the spec: the state of a reference-counted concrete
implementation (an external collaborator of the crate; no implementation
exists under src/).  Each slot holds a wrapped value together with the
number of live handles referencing it; a handle is the index of its slot. -/
structure RcState (T : Type) where
  slots : List (Option (T × Nat))

/-- Modelled from the spec: the share count of the value instance referenced
by handle `h` (0 when the handle is dangling or the slot is free). -/
def Rc.ref_count {T : Type} (s : RcState T) (h : Nat) : Nat :=
  match s.slots[h]? with
  | some (some (_, n)) => n
  | _ => 0

/-- Modelled from the spec: the wrapped value a handle dereferences to. -/
def Rc.value_at {T : Type} (s : RcState T) (h : Nat) : Option T :=
  match s.slots[h]? with
  | some (some (v, _)) => some v
  | _ => none

/-- Modelled from the spec: `SmartPointer::new` — wraps a value, returning a
fresh handle with share count 1. -/
def Rc.new {T : Type} (v : T) (s : RcState T) : Nat × RcState T :=
  (s.slots.length, ⟨s.slots ++ [some (v, 1)]⟩)

/-- Modelled from the spec: `Clone::clone` on a handle — a new handle to the
same value instance, incrementing the share count. -/
def Rc.clone {T : Type} (h : Nat) (s : RcState T) : RcState T :=
  match s.slots[h]? with
  | some (some (v, n)) => ⟨s.slots.set h (some (v, n + 1))⟩
  | _ => s

/-- Modelled from the spec: `SmartPointer::try_unwrap` — succeeds, consuming
the handle and yielding the owned value, exactly when the handle is the sole
live handle (share count 1); otherwise it returns the original handle and
changes nothing. -/
def Rc.try_unwrap {T : Type} (h : Nat) (s : RcState T) : Except Nat T × RcState T :=
  match s.slots[h]? with
  | some (some (v, n)) =>
    if n = 1 then (Except.ok v, ⟨s.slots.set h none⟩) else (Except.error h, s)
  | _ => (Except.error h, s)

/-- Modelled from the spec: `IntoMut::can_make_mut` — a pure predicate that
reports whether exactly one live handle references the value, touching no
state. -/
def Rc.can_make_mut {T : Type} (h : Nat) (s : RcState T) : Bool × RcState T :=
  (Rc.ref_count s h == 1, s)

/-- Modelled from the spec: `IntoMut::into_mut_unchecked` — reinterprets the
(unique) handle as a mutable-capability pointer to the same slot. -/
def Rc.into_mut_unchecked {T : Type} (h : Nat) (s : RcState T) : Nat × RcState T :=
  (h, s)

/-- Modelled from the spec: writing through the `MutablePointer` (the
`DerefMut`/`AsMut`/`BorrowMut` capability of `SmartPointerMut`). -/
def Rc.set_value {T : Type} (m : Nat) (w : T) (s : RcState T) : RcState T :=
  match s.slots[m]? with
  | some (some (_, n)) => ⟨s.slots.set m (some (w, n))⟩
  | _ => s

/-- Modelled from the spec: the `Into<Self>` conversion of the associated
`MutablePointer` back into the shared handle type. -/
def Rc.into_self (m : Nat) : Nat := m

/-- The reference-counted model packaged as an implementation of the
`IntoMut` trait surface, with the model state as the effect state.
`get_mut_unchecked` is modelled as reading the value the mutable reference
points at; it panics (`none`) only on a dangling handle. -/
def Rc.ops (T : Type) : IntoMutOps (RcState T) Nat Nat T where
  can_make_mut := fun h s => some (Rc.can_make_mut h s)
  into_mut_unchecked := fun h s => some (Rc.into_mut_unchecked h s)
  get_mut_unchecked := fun h s =>
    match Rc.value_at s h with
    | some v => some (v, s)
    | none => none

/-- Helper: indexing the concatenation of a list and a singleton at the
length of the list yields the appended element. -/
theorem getElem?_append_singleton {α : Type} (l : List α) (a : α) :
    (l ++ [a])[l.length]? = some a := by
  induction l with
  | nil => rfl
  | cons x xs ih => simp [ih]

/-- Claim C1: for every handle `h`, the provided method `into_mut` returns
`Ok` exactly when `can_make_mut` returns `true`, the `Ok` payload is the
result of `into_mut_unchecked` applied to `h`, and when the check is `false`
the result is `Err` carrying the very handle that was passed in. -/
theorem into_mut_ok_iff_can_make_mut {σ S M R : Type} (O : IntoMutOps σ S M R)
    (h : S) (s : σ) (b : Bool) (s1 : σ) (m : M) (s2 : σ)
    (hc : O.can_make_mut h s = some (b, s1))
    (hu : O.into_mut_unchecked h s1 = some (m, s2)) :
    (b = true → (IntoMut.into_mut O h s).1 = some (Except.ok m, s2)) ∧
    (b = false → (IntoMut.into_mut O h s).1 = some (Except.error h, s1)) ∧
    (∀ m' s', (IntoMut.into_mut O h s).1 = some (Except.ok m', s') → b = true) := by
  cases b <;> simp [IntoMut.into_mut, hc, hu]

/-- Witness for C1 at a concrete unique handle: state with one slot of share
count 1, where the check succeeds and `into_mut` returns the unchecked
conversion. -/
theorem into_mut_ok_iff_can_make_mut_witness :
    (Rc.ops Nat).can_make_mut 0 ⟨[some (5, 1)]⟩ = some (true, ⟨[some (5, 1)]⟩) ∧
    (Rc.ops Nat).into_mut_unchecked 0 ⟨[some (5, 1)]⟩ = some (0, ⟨[some (5, 1)]⟩) ∧
    (IntoMut.into_mut (Rc.ops Nat) 0 ⟨[some (5, 1)]⟩).1 =
      some (Except.ok 0, ⟨[some (5, 1)]⟩) :=
  ⟨rfl, rfl,
    (into_mut_ok_iff_can_make_mut (Rc.ops Nat) 0 ⟨[some (5, 1)]⟩ true ⟨[some (5, 1)]⟩
      0 ⟨[some (5, 1)]⟩ rfl rfl).1 rfl⟩

/-- Claim C2: for every handle `h`, the provided method `get_mut` returns
`Some` exactly when `can_make_mut` returns `true`, with the `Some` payload
being the reference produced by `get_mut_unchecked`; when the check is
`false` it returns `None`. -/
theorem get_mut_some_iff_can_make_mut {σ S M R : Type} (O : IntoMutOps σ S M R)
    (h : S) (s : σ) (b : Bool) (s1 : σ) (r : R) (s2 : σ)
    (hc : O.can_make_mut h s = some (b, s1))
    (hu : O.get_mut_unchecked h s1 = some (r, s2)) :
    (b = true → (IntoMut.get_mut O h s).1 = some (some r, s2)) ∧
    (b = false → (IntoMut.get_mut O h s).1 = some (none, s1)) ∧
    (∀ r' s', (IntoMut.get_mut O h s).1 = some (some r', s') → b = true) := by
  cases b <;> simp [IntoMut.get_mut, hc, hu]

/-- Witness for C2 at a concrete unique handle: the check succeeds and
`get_mut` returns `Some` of the wrapped value 5. -/
theorem get_mut_some_iff_can_make_mut_witness :
    (Rc.ops Nat).can_make_mut 0 ⟨[some (5, 1)]⟩ = some (true, ⟨[some (5, 1)]⟩) ∧
    (Rc.ops Nat).get_mut_unchecked 0 ⟨[some (5, 1)]⟩ = some (5, ⟨[some (5, 1)]⟩) ∧
    (IntoMut.get_mut (Rc.ops Nat) 0 ⟨[some (5, 1)]⟩).1 =
      some (some 5, ⟨[some (5, 1)]⟩) :=
  ⟨rfl, rfl,
    (get_mut_some_iff_can_make_mut (Rc.ops Nat) 0 ⟨[some (5, 1)]⟩ true ⟨[some (5, 1)]⟩
      5 ⟨[some (5, 1)]⟩ rfl rfl).1 rfl⟩

/-- Claim C3: in the provided bodies of `into_mut` and `get_mut`, an unsafe
primitive is invoked precisely when `can_make_mut` has just returned `true`:
the call trace of `into_mut` contains `into_mut_unchecked` iff the check
returned `true`, likewise for `get_mut` and `get_mut_unchecked`, and neither
body ever invokes the unchecked primitive of the other. -/
theorem unchecked_only_when_check_true {σ S M R : Type} (O : IntoMutOps σ S M R)
    (h : S) (s : σ) :
    (MCall.intoMutUnchecked ∈ (IntoMut.into_mut O h s).2 ↔
      ∃ s1, O.can_make_mut h s = some (true, s1)) ∧
    (MCall.getMutUnchecked ∈ (IntoMut.get_mut O h s).2 ↔
      ∃ s1, O.can_make_mut h s = some (true, s1)) ∧
    MCall.getMutUnchecked ∉ (IntoMut.into_mut O h s).2 ∧
    MCall.intoMutUnchecked ∉ (IntoMut.get_mut O h s).2 := by
  rcases hc : O.can_make_mut h s with _ | ⟨b, s1⟩
  · simp [IntoMut.into_mut, IntoMut.get_mut, hc]
  · cases b
    · simp [IntoMut.into_mut, IntoMut.get_mut, hc]
    · rcases hi : O.into_mut_unchecked h s1 with _ | ⟨m, s2⟩ <;>
        rcases hg : O.get_mut_unchecked h s1 with _ | ⟨r, s3⟩ <;>
        simp [IntoMut.into_mut, IntoMut.get_mut, hc, hi, hg]

/-- Claim C4: the provided methods never panic or abort under normal use
(i.e. whenever the trait methods an implementor supplies do not themselves
panic): both bodies produce a result, and on a failed uniqueness check they
produce the `Err`/`None` alternative — without even consulting the unchecked
primitives. -/
theorem into_mut_get_mut_total {σ S M R : Type} (O : IntoMutOps σ S M R)
    (h : S) (s : σ) (b : Bool) (s1 : σ)
    (hc : O.can_make_mut h s = some (b, s1))
    (hi : b = true → O.into_mut_unchecked h s1 ≠ none)
    (hg : b = true → O.get_mut_unchecked h s1 ≠ none) :
    (IntoMut.into_mut O h s).1 ≠ none ∧ (IntoMut.get_mut O h s).1 ≠ none ∧
    (b = false →
      (IntoMut.into_mut O h s).1 = some (Except.error h, s1) ∧
      (IntoMut.get_mut O h s).1 = some (none, s1)) := by
  cases b
  · simp [IntoMut.into_mut, IntoMut.get_mut, hc]
  · rcases hi2 : O.into_mut_unchecked h s1 with _ | ⟨m, s2⟩
    · exact absurd hi2 (hi rfl)
    · rcases hg2 : O.get_mut_unchecked h s1 with _ | ⟨r, s3⟩
      · exact absurd hg2 (hg rfl)
      · simp [IntoMut.into_mut, IntoMut.get_mut, hc, hi2, hg2]

/-- Witness for C4 at a concrete shared handle (share count 2): the check
fails and both provided methods return their failure alternative. -/
theorem into_mut_get_mut_total_witness :
    (Rc.ops Nat).can_make_mut 0 ⟨[some (5, 2)]⟩ = some (false, ⟨[some (5, 2)]⟩) ∧
    (IntoMut.into_mut (Rc.ops Nat) 0 ⟨[some (5, 2)]⟩).1 =
      some (Except.error 0, ⟨[some (5, 2)]⟩) ∧
    (IntoMut.get_mut (Rc.ops Nat) 0 ⟨[some (5, 2)]⟩).1 =
      some (none, ⟨[some (5, 2)]⟩) :=
  ⟨rfl,
    (into_mut_get_mut_total (Rc.ops Nat) 0 ⟨[some (5, 2)]⟩ false ⟨[some (5, 2)]⟩
      rfl (fun hb => absurd hb (by decide)) (fun hb => absurd hb (by decide))).2.2 rfl⟩

/-- Helper: a successful lookup bounds the index. -/
theorem lt_length_of_getElem?_some {α : Type} (l : List α) (i : Nat) (a : α)
    (h : l[i]? = some a) : i < l.length := by
  by_contra hlt
  rw [List.getElem?_eq_none (Nat.le_of_not_lt hlt)] at h
  exact Option.noConfusion h

/-- Claim C5: `try_unwrap h` succeeds with the owned wrapped value exactly
when `h` is the sole live handle referencing the value instance (share count
1); otherwise it returns `Err` with the original handle and the state is
entirely unchanged. -/
theorem try_unwrap_ok_iff_sole {T : Type} (s : RcState T) (h : Nat) :
    (Rc.ref_count s h = 1 →
      ∃ v, Rc.value_at s h = some v ∧
        Rc.try_unwrap h s = (Except.ok v, ⟨s.slots.set h none⟩)) ∧
    (Rc.ref_count s h ≠ 1 → Rc.try_unwrap h s = (Except.error h, s)) := by
  rcases hsl : s.slots[h]? with _ | (_ | ⟨v, n⟩)
  · simp [Rc.ref_count, Rc.value_at, Rc.try_unwrap, hsl]
  · simp [Rc.ref_count, Rc.value_at, Rc.try_unwrap, hsl]
  · by_cases hn : n = 1
    · subst hn
      simp [Rc.ref_count, Rc.value_at, Rc.try_unwrap, hsl]
    · simp [Rc.ref_count, Rc.value_at, Rc.try_unwrap, hsl, hn]

/-- Witness for C5 at a concrete shared handle (share count 2): the
uniqueness test fails and `try_unwrap` hands the handle back unchanged. -/
theorem try_unwrap_ok_iff_sole_witness :
    Rc.ref_count (⟨[some (5, 2)]⟩ : RcState Nat) 0 ≠ 1 ∧
    Rc.try_unwrap 0 (⟨[some (5, 2)]⟩ : RcState Nat) =
      (Except.error 0, ⟨[some (5, 2)]⟩) :=
  ⟨by decide, (try_unwrap_ok_iff_sole (⟨[some (5, 2)]⟩ : RcState Nat) 0).2 (by decide)⟩

/-- Claim C6: for every value `v` and every starting state, unwrapping a
freshly constructed handle succeeds and returns `v`: a fresh handle is
always the unique handle to its value. -/
theorem try_unwrap_new_ok {T : Type} (v : T) (s : RcState T) :
    (Rc.try_unwrap (Rc.new v s).1 (Rc.new v s).2).1 = Except.ok v := by
  simp [Rc.new, Rc.try_unwrap, getElem?_append_singleton]

/-- Claim C7: `can_make_mut` is pure: one call leaves the state unchanged,
any number `k` of repeated calls leaves the state unchanged, and the boolean
returned after any number of preceding calls equals the one returned by the
first call. -/
theorem can_make_mut_pure {T : Type} (h : Nat) (s : RcState T) (k : Nat) :
    (Rc.can_make_mut h s).2 = s ∧
    Nat.iterate (fun st => (Rc.can_make_mut h st).2) k s = s ∧
    (Rc.can_make_mut h (Nat.iterate (fun st => (Rc.can_make_mut h st).2) k s)).1 =
      (Rc.can_make_mut h s).1 := by
  have hk : Nat.iterate (fun st : RcState T => (Rc.can_make_mut h st).2) k s = s := by
    induction k with
    | zero => rfl
    | succ n ih => rw [Function.iterate_succ_apply]; exact ih
  exact ⟨rfl, hk, by rw [hk]⟩

/-- Claim C8: converting a unique handle into the associated
`MutablePointer`, mutating the wrapped value through its mutable capability,
and converting back `Into<Self>` yields a handle that dereferences to the
mutated value. -/
theorem mutable_pointer_roundtrip {T : Type} (s : RcState T) (h : Nat) (w : T)
    (hc : (Rc.can_make_mut h s).1 = true) :
    Rc.value_at
      (Rc.set_value (Rc.into_mut_unchecked h s).1 w (Rc.into_mut_unchecked h s).2)
      (Rc.into_self (Rc.into_mut_unchecked h s).1) = some w := by
  have h1 : Rc.ref_count s h = 1 := by simpa [Rc.can_make_mut] using hc
  rcases hsl : s.slots[h]? with _ | (_ | ⟨v, n⟩)
  · simp [Rc.ref_count, hsl] at h1
  · simp [Rc.ref_count, hsl] at h1
  · have hlen : h < s.slots.length := lt_length_of_getElem?_some _ _ _ hsl
    simp [Rc.into_mut_unchecked, Rc.into_self, Rc.set_value, Rc.value_at, hsl,
      List.getElem?_set_eq_of_lt _ hlen]

/-- Witness for C8 (the Scenario A shape of the spec): a unique handle to 5,
mutated to 7 through the mutable pointer, dereferences to 7 after the
conversion back. -/
theorem mutable_pointer_roundtrip_witness :
    (Rc.can_make_mut 0 (⟨[some (5, 1)]⟩ : RcState Nat)).1 = true ∧
    Rc.value_at
      (Rc.set_value (Rc.into_mut_unchecked 0 (⟨[some (5, 1)]⟩ : RcState Nat)).1 7
        (Rc.into_mut_unchecked 0 (⟨[some (5, 1)]⟩ : RcState Nat)).2)
      (Rc.into_self (Rc.into_mut_unchecked 0 (⟨[some (5, 1)]⟩ : RcState Nat)).1) =
      some 7 :=
  ⟨rfl, mutable_pointer_roundtrip (⟨[some (5, 1)]⟩ : RcState Nat) 0 7 rfl⟩

/-- Claim C10: the provided bodies perform nothing but one `can_make_mut`
call followed by at most one call of the corresponding unchecked primitive —
in particular no clone, `new`, `try_unwrap` or dereference — and on the
failed-check path they hand back exactly the handle that was passed in. -/
theorem defaults_call_only_check_then_unchecked {σ S M R : Type}
    (O : IntoMutOps σ S M R) (h : S) (s : σ) :
    ((IntoMut.into_mut O h s).2 = [MCall.canMakeMut] ∨
      (IntoMut.into_mut O h s).2 = [MCall.canMakeMut, MCall.intoMutUnchecked]) ∧
    ((IntoMut.get_mut O h s).2 = [MCall.canMakeMut] ∨
      (IntoMut.get_mut O h s).2 = [MCall.canMakeMut, MCall.getMutUnchecked]) ∧
    (∀ s1, O.can_make_mut h s = some (false, s1) →
      (IntoMut.into_mut O h s).1 = some (Except.error h, s1) ∧
      (IntoMut.get_mut O h s).1 = some (none, s1)) := by
  rcases hc : O.can_make_mut h s with _ | ⟨b, s1⟩
  · simp [IntoMut.into_mut, IntoMut.get_mut, hc]
  · cases b
    · simp [IntoMut.into_mut, IntoMut.get_mut, hc]
    · rcases hi : O.into_mut_unchecked h s1 with _ | ⟨m, s2⟩ <;>
        rcases hg : O.get_mut_unchecked h s1 with _ | ⟨r, s3⟩ <;>
        simp [IntoMut.into_mut, IntoMut.get_mut, hc, hi, hg]

/-- Witness for C10 at a concrete shared handle: the failed-check path hands
back the very handle. -/
theorem defaults_call_only_check_then_unchecked_witness :
    (Rc.ops Nat).can_make_mut 0 ⟨[some (5, 2)]⟩ = some (false, ⟨[some (5, 2)]⟩) ∧
    (IntoMut.into_mut (Rc.ops Nat) 0 ⟨[some (5, 2)]⟩).2 = [MCall.canMakeMut] ∧
    (IntoMut.into_mut (Rc.ops Nat) 0 ⟨[some (5, 2)]⟩).1 =
      some (Except.error 0, ⟨[some (5, 2)]⟩) :=
  ⟨rfl, rfl,
    ((defaults_call_only_check_then_unchecked (Rc.ops Nat) 0 ⟨[some (5, 2)]⟩).2.2
      ⟨[some (5, 2)]⟩ rfl).1⟩
